import Mathlib

/-!
A shallow embedding of the fan-control program in `src/clevo-indicator.c`.

C `int` values are modelled as `ℤ`, C `double` values as `ℚ` (the doubles in
this program hold small integers and results of a few divisions by 3, where
binary floating point and exact rationals agree on every comparison the
program performs), and C byte/port values as `ℕ`.  Hardware and filesystem
effects are modelled as explicit oracles: a stream of status-port bytes for
`inb`, an attribute lookup for the hwmon sysfs files, and per-cycle inputs
for the standalone control loop.
-/

namespace Clevo

/-! ## Constants from the source -/

def EXIT_SUCCESS : ℤ := 0

def EXIT_FAILURE : ℤ := 1

def IBF : ℕ := 1

def OBF : ℕ := 0

/-- `TEMP_FAIL_THRESHOLD` (compared against `double` temperatures). -/
def TEMP_FAIL_THRESHOLD : ℚ := 15

/-! ## EC port handshake (`ec_io_wait`, `ec_io_read`, `ec_io_do`)

`inb(EC_SC)` is modelled as a stream `sc : ℕ → ℕ` of successive status-port
bytes; `t` is the index of the byte currently held in `data`.  The C loop

    uint8_t data = inb(port);
    int i = 0;
    while ((((data >> flag) & 0x1) != value) && (i++ < 100)) {
        usleep(1000);
        data = inb(port);
    }

is a bounded retry: each failed test post-increments `i`, and the body runs
only while the pre-increment value was `< 100`.  The function afterwards
tests `i >= 1000`.  `ec_io_wait_loop` returns the final `(i, t)`; fuel `101`
is enough since `i` grows by one per recursive call and the loop stops once
`i` reaches `100`. -/

def ec_io_wait_loop (sc : ℕ → ℕ) (flag value : ℕ) : ℕ → ℕ → ℕ → ℕ × ℕ
  | 0, i, t => (i, t)
  | fuel + 1, i, t =>
    if (sc t >>> flag) % 2 ≠ value then
      (if i < 100 then ec_io_wait_loop sc flag value fuel (i + 1) (t + 1) else (i + 1, t))
    else (i, t)

/-- `ec_io_wait`: result code plus the stream position reached (so that the
three handshake waits of a register access can be chained). -/
def ec_io_wait_full (sc : ℕ → ℕ) (flag value : ℕ) (t : ℕ) : ℤ × ℕ :=
  let r := ec_io_wait_loop sc flag value 101 0 t
  (if r.1 ≥ 1000 then EXIT_FAILURE else EXIT_SUCCESS, r.2)

def ec_io_wait (sc : ℕ → ℕ) (flag value : ℕ) : ℤ :=
  (ec_io_wait_full sc flag value 0).1

/-- Port environment for one register access: the status-port stream and the
byte the data port yields when finally read. -/
structure EcPorts where
  sc : ℕ → ℕ
  data : ℕ → ℕ

/-- `ec_io_read`: three handshake waits (results discarded, exactly as in the
source, which ignores every `ec_io_wait` return value), then an unconditional
read of the data port. -/
def ec_io_read (p : EcPorts) : ℕ :=
  let w1 := ec_io_wait_full p.sc IBF 0 0
  let w2 := ec_io_wait_full p.sc IBF 0 w1.2
  let w3 := ec_io_wait_full p.sc OBF 1 w2.2
  p.data w3.2

/-- `ec_io_do`: four handshake waits around the vendor command sequence; the
return value is the result of the final wait.  `cmd`, `port` and `value` are
the bytes written out by `outb`; writing has no modelled effect. -/
def ec_io_do (_cmd _port : ℕ) (_value : ℤ) (sc : ℕ → ℕ) : ℤ :=
  let w1 := ec_io_wait_full sc IBF 0 0
  let w2 := ec_io_wait_full sc IBF 0 w1.2
  let w3 := ec_io_wait_full sc IBF 0 w2.2
  (ec_io_wait_full sc IBF 0 w3.2).1

/-! ## Telemetry codec -/

/-- C truncation of a `double` to `int` (toward zero). -/
def truncQ (q : ℚ) : ℤ := if q < 0 then ⌈q⌉ else ⌊q⌋

/-- `calculate_fan_duty`: `(int)((double) raw_duty / 255.0 * 100.0 + 0.5)`. -/
def calculate_fan_duty (raw_duty : ℤ) : ℤ :=
  truncQ ((raw_duty : ℚ) / 255 * 100 + 1 / 2)

/-- `calculate_fan_rpms`: combine the high/low tachometer bytes. -/
def calculate_fan_rpms (raw_rpm_high raw_rpm_low : ℤ) : ℤ :=
  let raw_rpm := raw_rpm_high * 256 + raw_rpm_low
  if raw_rpm > 0 then Int.tdiv 2156220 raw_rpm else 0

/-- The raw byte computed by `ec_write_cpu_fan_duty` / `ec_write_gpu_fan_duty`
before it is sent to the EC:
`v_d = ((double) duty_percentage) / 100.0 * 255.0 + 0.5; v_i = (int) v_d`. -/
def ec_write_fan_duty_raw (duty_percentage : ℤ) : ℤ :=
  truncQ ((duty_percentage : ℚ) / 100 * 255 + 1 / 2)

/-! ## Stepped single-sensor ladder (`ec_auto_duty_adjust`)

The worker reads `share_info->cpu_temp`, `share_info->gpu_temp` and
`share_info->fan_duty`; the function is otherwise pure, so those three reads
become arguments. -/

def ec_auto_duty_adjust (cpu_temp gpu_temp fan_duty : ℤ) : ℤ :=
  let temp := max cpu_temp gpu_temp
  let duty := fan_duty
  if temp ≥ 80 ∧ duty < 100 then 100
  else if temp ≥ 70 ∧ duty < 90 then 90
  else if temp ≥ 60 ∧ duty < 80 then 80
  else if temp ≥ 55 ∧ duty < 70 then 70
  else if temp ≥ 40 ∧ duty < 60 then 60
  else if temp ≥ 30 ∧ duty < 50 then 50
  else if temp ≥ 20 ∧ duty < 40 then 40
  else if temp ≥ 10 ∧ duty < 30 then 30
  else if temp ≤ 15 ∧ duty > 30 then 30
  else if temp ≤ 25 ∧ duty > 40 then 40
  else if temp ≤ 35 ∧ duty > 50 then 50
  else if temp ≤ 45 ∧ duty > 60 then 60
  else if temp ≤ 55 ∧ duty > 70 then 70
  else if temp ≤ 65 ∧ duty > 80 then 80
  else if temp ≤ 75 ∧ duty > 90 then 90
  else 100

/-- The rising threshold table of the spec: pairs (temperature threshold,
duty). -/
def risingRules : List (ℤ × ℤ) :=
  [(80, 100), (70, 90), (60, 80), (55, 70), (40, 60), (30, 50), (20, 40), (10, 30)]

/-- The falling threshold table of the spec. -/
def fallingRules : List (ℤ × ℤ) :=
  [(15, 30), (25, 40), (35, 50), (45, 60), (55, 70), (65, 80), (75, 90)]

/-- First rising rule whose temperature threshold is reached (the claim's
reading: a rule depends on the temperature alone). -/
def findRisingTemp (temp : ℤ) : List (ℤ × ℤ) → Option ℤ
  | [] => none
  | r :: rs => if temp ≥ r.1 then some r.2 else findRisingTemp temp rs

/-- First falling rule whose temperature threshold is reached. -/
def findFallingTemp (temp : ℤ) : List (ℤ × ℤ) → Option ℤ
  | [] => none
  | r :: rs => if temp ≤ r.1 then some r.2 else findFallingTemp temp rs

/-- The ladder exactly as the claim words it: the duty given by the rising
threshold table, else by the falling table evaluated only when no rising
condition matched, else 100.  Used as the spec side of the refinement
comparison for the ladder. -/
def ladderSpecTable (temp : ℤ) : ℤ :=
  (findRisingTemp temp risingRules).getD ((findFallingTemp temp fallingRules).getD 100)

/-- First rising rule whose temperature threshold is reached while the
applied duty is still below the rule's target. -/
def findRisingGuarded (temp duty : ℤ) : List (ℤ × ℤ) → Option ℤ
  | [] => none
  | r :: rs => if temp ≥ r.1 ∧ duty < r.2 then some r.2 else findRisingGuarded temp duty rs

/-- First falling rule whose temperature threshold is reached while the
applied duty is still above the rule's target. -/
def findFallingGuarded (temp duty : ℤ) : List (ℤ × ℤ) → Option ℤ
  | [] => none
  | r :: rs => if temp ≤ r.1 ∧ duty > r.2 then some r.2 else findFallingGuarded temp duty rs

/-- The ladder with the duty guards that are actually in the code: a rising
rule fires only while the applied duty is below its target, a falling rule
only while the applied duty is above its target; first match wins, else hold
at 100. -/
def ladderSpecGuarded (temp duty : ℤ) : ℤ :=
  (findRisingGuarded temp duty risingRules).getD
    ((findFallingGuarded temp duty fallingRules).getD 100)

/-! ## hwmon backend (`use_hwmon_interface` mode)

Each logical quantity is a separate sysfs attribute file; `fopen` failure is
modelled by the lookup returning `none`.  The port branch of each query takes
its own port environment (`ports n` for the n-th register access the call
performs). -/

inductive HwmonAttr
  | temp1_input
  | pwm1
  | fan1_input
  | pwm2
  | fan2_input
deriving DecidableEq

abbrev HwmonFS : Type := HwmonAttr → Option ℤ

def EC_REG_CPU_FAN_DUTY : ℕ := 0xCE

def EC_REG_CPU_TEMP : ℕ := 0x07

def EC_REG_CPU_FAN_RPMS_HI : ℕ := 0xD0

def EC_REG_CPU_FAN_RPMS_LO : ℕ := 0xD1

def EC_REG_GPU_FAN_RPMS_HI : ℕ := 0xD2

def EC_REG_GPU_FAN_RPMS_LO : ℕ := 0xD3

def EC_REG_GPU_TEMP : ℕ := 0xCD

def EC_REG_GPU_FAN_DUTY : ℕ := 0xCF

def ec_query_cpu_temp (useHwmon : Bool) (fs : HwmonFS) (ports : ℕ → EcPorts) : ℤ :=
  if useHwmon then
    match fs .temp1_input with
    | none => 99
    | some val => Int.tdiv val 1000
  else (ec_io_read (ports 0) : ℤ)

/-- `ec_query_gpu_temp` has no hwmon branch in the source. -/
def ec_query_gpu_temp (ports : ℕ → EcPorts) : ℤ :=
  (ec_io_read (ports 0) : ℤ)

def ec_query_cpu_fan_duty (useHwmon : Bool) (fs : HwmonFS) (ports : ℕ → EcPorts) : ℤ :=
  if useHwmon then
    match fs .pwm1 with
    | none => 99
    | some val => calculate_fan_duty val
  else calculate_fan_duty (ec_io_read (ports 0) : ℤ)

def ec_query_cpu_fan_rpms (useHwmon : Bool) (fs : HwmonFS) (ports : ℕ → EcPorts) : ℤ :=
  if useHwmon then
    match fs .fan1_input with
    | none => 99
    | some val => val
  else calculate_fan_rpms (ec_io_read (ports 0) : ℤ) (ec_io_read (ports 1) : ℤ)

def ec_query_gpu_fan_duty (useHwmon : Bool) (fs : HwmonFS) (ports : ℕ → EcPorts) : ℤ :=
  if useHwmon then
    match fs .pwm2 with
    | none => 99
    | some val => calculate_fan_duty val
  else calculate_fan_duty (ec_io_read (ports 0) : ℤ)

def ec_query_gpu_fan_rpms (useHwmon : Bool) (fs : HwmonFS) (ports : ℕ → EcPorts) : ℤ :=
  if useHwmon then
    match fs .fan2_input with
    | none => 99
    | some val => val
  else calculate_fan_rpms (ec_io_read (ports 0) : ℤ) (ec_io_read (ports 1) : ℤ)

/-- `ec_write_cpu_fan_duty`: range check, raw-byte encoding, then either the
hwmon attribute write (`99` when the file cannot be opened, `0` otherwise) or
the vendor command sequence over the ports. -/
def ec_write_cpu_fan_duty (useHwmon : Bool) (fs : HwmonFS) (sc : ℕ → ℕ)
    (duty_percentage : ℤ) : ℤ :=
  if duty_percentage < 0 ∨ duty_percentage > 100 then EXIT_FAILURE
  else
    let v_i := ec_write_fan_duty_raw duty_percentage
    if useHwmon then
      match fs .pwm1 with
      | none => 99
      | some _ => 0
    else ec_io_do 0x99 0x01 v_i sc

def ec_write_gpu_fan_duty (useHwmon : Bool) (fs : HwmonFS) (sc : ℕ → ℕ)
    (duty_percentage : ℤ) : ℤ :=
  if duty_percentage < 0 ∨ duty_percentage > 100 then EXIT_FAILURE
  else
    let v_i := ec_write_fan_duty_raw duty_percentage
    if useHwmon then
      match fs .pwm2 with
      | none => 99
      | some _ => 0
    else ec_io_do 0x99 0x02 v_i sc

/-! ## The dual-sensor control loop (`autoset_cpu_gpu`)

One iteration of the `while (1)` loop, as a function of loop-carried state
and of the cycle's external inputs.  Writes to the fans are recorded as a
list of `(channel, duty)` events (channel 0 = CPU, 1 = GPU), matching the
order of the `ec_write_*` calls; the write-verify retry loop repeats a write
of the same value and is not loop-state-relevant, so one event stands for
it. -/

/-- The six `ctrl_setting_*` static variables. -/
structure CtrlSettings where
  offset_cpu : ℤ
  offset_gpu : ℤ
  min_cpu : ℤ
  min_gpu : ℤ
  force_cpu : ℤ
  force_gpu : ℤ
deriving DecidableEq

/-- Initial values of the `ctrl_setting_*` statics. -/
def ctrlInit : CtrlSettings :=
  { offset_cpu := 0, offset_gpu := 0, min_cpu := 0, min_gpu := 0
    force_cpu := -1, force_gpu := -1 }

/-- External inputs consumed by one loop iteration: whether a GPU token was
drained from stdin and its value, the up-to-three `ec_query_cpu_temp`
results of the retry loop, the two hardware duty readbacks, and the effect
of parsing `/tmp/clevo_fan_ctrl` if it is polled this cycle (`none` when the
file cannot be opened). -/
structure CycleInput where
  found : Bool
  gputemp : ℤ
  cpuReads : Fin 3 → ℤ
  curCpu : ℤ
  curGpu : ℤ
  ctrlFile : Option (CtrlSettings → CtrlSettings)

/-- Loop-carried state of `autoset_cpu_gpu`. -/
structure LoopState where
  initial : Bool
  current0 : ℤ
  current1 : ℤ
  lastCPU : ℚ
  lastGPU : ℚ
  repeat0 : ℤ
  repeat1 : ℤ
  lastfail : ℤ
  missing : ℤ
  ctrl_check : ℤ
  ctrl : CtrlSettings

/-- State at entry to the loop. -/
def initState : LoopState :=
  { initial := true, current0 := 0, current1 := 0, lastCPU := 0, lastGPU := 0
    repeat0 := 0, repeat1 := 0, lastfail := 0, missing := 0, ctrl_check := 0
    ctrl := ctrlInit }

/-- Observable outcome of one iteration. -/
structure CycleResult where
  terminated : Bool
  writes : List (ℕ × ℤ)
  state : LoopState

/-- The CPU-temperature retry loop: take the first of (up to) three readings
satisfying `cputemp < 100 || cputemp < lastCPU + 20`; after three failed
tries the last reading stands. -/
def cpuTempSelected (lastCPU : ℚ) (reads : Fin 3 → ℤ) : ℚ :=
  if ((reads 0 : ℤ) : ℚ) < 100 ∨ ((reads 0 : ℤ) : ℚ) < lastCPU + 20 then (reads 0 : ℤ)
  else if ((reads 1 : ℤ) : ℚ) < 100 ∨ ((reads 1 : ℤ) : ℚ) < lastCPU + 20 then (reads 1 : ℤ)
  else (reads 2 : ℤ)

/-- `if (cputemp < lastCPU - 10) cputemp = lastCPU - 10;` -/
def cpuTempClamped (lastCPU : ℚ) (reads : Fin 3 → ℤ) : ℚ :=
  let t := cpuTempSelected lastCPU reads
  if t < lastCPU - 10 then lastCPU - 10 else t

/-- GPU rescaling before blending. -/
def gpuRescaled (g : ℚ) : ℚ :=
  if g ≤ 65 then g - 10 else if g < 75 then g - (75 - g) else g

/-- Cross-coupling of the two channels: `(avg[0], avg[1])`. -/
def blendPair (cputemp gput : ℚ) : ℚ × ℚ :=
  if cputemp > gput then (cputemp, (2 * gput + cputemp) / 3)
  else ((2 * cputemp + gput) / 3, gput)

/-- The four-segment temperature-to-duty curve (assignment of a `double`
expression to the `int` array `setDuty` truncates). -/
def dutyCurve (a : ℚ) : ℤ :=
  if a ≤ 40 then 0
  else if a ≤ 45 then 15
  else if a ≤ 75 then truncQ (a - 30)
  else if a ≤ 90 then truncQ ((a - 75) * 3 + 45)
  else 100

/-- The control-file override block (source lines 283-289): additive offset
(only when nonzero), then floor, then forced value (whenever not `-1`), then
the `> 100` cap, for both channels. -/
def applyOverrides (c : CtrlSettings) (in0 in1 : ℤ) : ℤ × ℤ :=
  let d0 := if c.offset_cpu ≠ 0 then in0 + c.offset_cpu else in0
  let d1 := if c.offset_gpu ≠ 0 then in1 + c.offset_gpu else in1
  let d0 := if c.min_cpu > d0 then c.min_cpu else d0
  let d1 := if c.min_gpu > d1 then c.min_gpu else d1
  let d0 := if c.force_cpu ≠ -1 then c.force_cpu else d0
  let d1 := if c.force_gpu ≠ -1 then c.force_gpu else d1
  let d0 := if d0 > 100 then 100 else d0
  let d1 := if d1 > 100 then 100 else d1
  (d0, d1)

/-- The per-channel rate-limiting decision (source lines 292-306) together
with the `if (doSet[i]) repeatCheck[i] = 0;` reset of the same loop: returns
`(doSet, repeatCheck')`. -/
def rateLimitDecide (current setDuty repeatCheck : ℤ) : Bool × ℤ :=
  if current = 0 ∧ setDuty ≠ 0 then (true, 0)
  else if setDuty > current ∧ setDuty > 50 then (true, 0)
  else if setDuty > current + 1 then (true, 0)
  else if setDuty < current - 5 then (true, 0)
  else if setDuty < current then
    (if repeatCheck ≥ 4 then (true, 0) else (false, repeatCheck + 1))
  else (false, repeatCheck)

/-- Control-file poll: `if (ctrl_check++ >= 3) { ctrl_check = 0; ... }` reads
the file only when the pre-increment counter was at least 3. -/
def cycleCtrl (s : LoopState) (inp : CycleInput) : CtrlSettings :=
  if s.ctrl_check ≥ 3 then
    match inp.ctrlFile with
    | some f => f s.ctrl
    | none => s.ctrl
  else s.ctrl

def cycleCtrlCheck (s : LoopState) : ℤ :=
  if s.ctrl_check ≥ 3 then 0 else s.ctrl_check + 1

/-- The CPU temperature value the iteration works with. -/
def cycleCputemp (s : LoopState) (inp : CycleInput) : ℚ :=
  cpuTempClamped s.lastCPU inp.cpuReads

/-- `(avg[0], avg[1])` after cross-coupling and exponential smoothing. -/
def cycleAvg (s : LoopState) (inp : CycleInput) : ℚ × ℚ :=
  let b := blendPair (cycleCputemp s inp) (gpuRescaled (inp.gputemp : ℚ))
  (if s.lastCPU > 30 then (2 * b.1 + s.lastCPU) / 3 else b.1,
   if s.lastGPU > 30 then (2 * b.2 + s.lastGPU) / 3 else b.2)

/-- Updated `(lastCPU, lastGPU)`: each smoothed state advances only when its
raw reading is at or above the 15 °C failure band. -/
def cycleLastTemps (s : LoopState) (inp : CycleInput) : ℚ × ℚ :=
  (if cycleCputemp s inp ≥ TEMP_FAIL_THRESHOLD then (cycleAvg s inp).1 else s.lastCPU,
   if ((inp.gputemp : ℤ) : ℚ) ≥ TEMP_FAIL_THRESHOLD then (cycleAvg s inp).2 else s.lastGPU)

/-- The per-channel duty request of this iteration: curve output plus
control-file overrides (the value fed to the rate-limiting policy). -/
def cycleReq (s : LoopState) (inp : CycleInput) : ℤ × ℤ :=
  applyOverrides (cycleCtrl s inp) (dutyCurve (cycleAvg s inp).1)
    (dutyCurve (cycleAvg s inp).2)

/-- Hardware-readback disagreement with the loop's last applied duties. -/
def cycleMismatch (s : LoopState) (inp : CycleInput) : Prop :=
  inp.curCpu ≠ s.current0 ∨ inp.curGpu ≠ s.current1

instance (s : LoopState) (inp : CycleInput) : Decidable (cycleMismatch s inp) := by
  unfold cycleMismatch; exact inferInstance

/-- The cycle's sensor-fault condition (source line 320): the clamp-adjusted
CPU temperature or the raw GPU token below `TEMP_FAIL_THRESHOLD`. -/
def cycleFault (s : LoopState) (inp : CycleInput) : Prop :=
  cycleCputemp s inp < TEMP_FAIL_THRESHOLD ∨ ((inp.gputemp : ℤ) : ℚ) < TEMP_FAIL_THRESHOLD

instance (s : LoopState) (inp : CycleInput) : Decidable (cycleFault s inp) := by
  unfold cycleFault; exact inferInstance

/-- `setDuty[0]` after the resync raise (`else if` branch: only when not the
initial cycle) of source line 317. -/
def cycleD0pre (s : LoopState) (inp : CycleInput) : ℤ :=
  let d := (cycleReq s inp).1
  if ¬ s.initial = true ∧ cycleMismatch s inp ∧ d < s.current0 then s.current0 else d

def cycleD1pre (s : LoopState) (inp : CycleInput) : ℤ :=
  let d := (cycleReq s inp).2
  if ¬ s.initial = true ∧ cycleMismatch s inp ∧ d < s.current1 then s.current1 else d

/-- `setDuty[0]` after the second-consecutive-fault floor of 50. -/
def cycleD0 (s : LoopState) (inp : CycleInput) : ℤ :=
  if cycleFault s inp ∧ 1 ≤ s.lastfail ∧ cycleD0pre s inp < 50 then 50
  else cycleD0pre s inp

def cycleD1 (s : LoopState) (inp : CycleInput) : ℤ :=
  if cycleFault s inp ∧ 1 ≤ s.lastfail ∧ cycleD1pre s inp < 50 then 50
  else cycleD1pre s inp

/-- Final `doSet[0]`: the policy decision, overridden to both-on by the
initial cycle or a hardware resync, and finally overwritten by the fault
block (off on a first fault, on on a repeated fault). -/
def cycleDoSet0 (s : LoopState) (inp : CycleInput) : Bool :=
  if cycleFault s inp then decide (1 ≤ s.lastfail)
  else
    (rateLimitDecide s.current0 (cycleReq s inp).1 s.repeat0).1 || s.initial
      || decide (cycleMismatch s inp)

def cycleDoSet1 (s : LoopState) (inp : CycleInput) : Bool :=
  if cycleFault s inp then decide (1 ≤ s.lastfail)
  else
    (rateLimitDecide s.current1 (cycleReq s inp).2 s.repeat1).1 || s.initial
      || decide (cycleMismatch s inp)

/-- `lastfail` after the fault block: a first fault increments it, a repeated
fault leaves it, a valid cycle resets it. -/
def cycleLastfail (s : LoopState) (inp : CycleInput) : ℤ :=
  if cycleFault s inp then (if 1 ≤ s.lastfail then s.lastfail else s.lastfail + 1)
  else 0

/-- One iteration with a GPU token present (`found` branch of the loop). -/
def foundStep (s : LoopState) (inp : CycleInput) : CycleResult :=
  { terminated := false
    writes :=
      (if cycleDoSet0 s inp then [(0, cycleD0 s inp)] else []) ++
        (if cycleDoSet1 s inp then [(1, cycleD1 s inp)] else [])
    state :=
      { initial := false
        current0 := if cycleDoSet0 s inp then cycleD0 s inp else s.current0
        current1 := if cycleDoSet1 s inp then cycleD1 s inp else s.current1
        lastCPU := (cycleLastTemps s inp).1
        lastGPU := (cycleLastTemps s inp).2
        repeat0 := (rateLimitDecide s.current0 (cycleReq s inp).1 s.repeat0).2
        repeat1 := (rateLimitDecide s.current1 (cycleReq s inp).2 s.repeat1).2
        lastfail := cycleLastfail s inp
        missing := 0
        ctrl_check := cycleCtrlCheck s
        ctrl := cycleCtrl s inp } }

/-- One full iteration of the `while (1)` loop: the `missing > 5` liveness
check first (70 % to the GPU fan, then the CPU fan, then `exit(1)`), then
either the `found` body or the `missing++` arm. -/
def cycleStep (s : LoopState) (inp : CycleInput) : CycleResult :=
  if s.missing > 5 then
    { terminated := true, writes := [(1, 70), (0, 70)], state := s }
  else if inp.found then foundStep s inp
  else
    { terminated := false, writes := []
      state := { s with missing := s.missing + 1 } }

def stepState (s : LoopState) (inp : CycleInput) : LoopState :=
  (cycleStep s inp).state

/-- A cycle on which `select` reports no pending GPU input. -/
def noTokInput : CycleInput :=
  { found := false, gputemp := 0, cpuReads := fun _ => 0, curCpu := 0, curGpu := 0
    ctrlFile := none }

/-! ## Shared control block (`share_info`) and the two processes' steps

The cross-process contract of the indicator mode.  Every mutation either
side performs on `share_info` after `main_init_share` (which runs before the
fork, in a single process) is modelled as a list of `(field, value)` write
events; an interleaving of the two processes is a list of events. -/

inductive Field
  | exitFlag
  | cpu_temp
  | gpu_temp
  | fan_duty
  | fan_rpms
  | auto_duty
  | auto_duty_val
  | manual_next_fan_duty
  | manual_prev_fan_duty
deriving DecidableEq

abbrev Share : Type := Field → ℤ

def applyShareWrites (σ : Share) (ws : List (Field × ℤ)) : Share :=
  ws.foldl (fun τ w => fun f => if f = w.1 then w.2 else τ f) σ

/-- Input to one iteration of `main_ec_worker`'s loop: the result of the
256-byte `fread` of the debug file (`none` on a short read, `some buf`
otherwise). -/
structure WorkerInput where
  buf : Option (ℕ → ℤ)

/-- The shared-state writes of one `main_ec_worker` loop iteration, in
program order: the pending-manual-duty handoff, the telemetry publication
from a full register read, and the auto-duty application. -/
def workerCycleWrites (σ : Share) (inp : WorkerInput) : List (Field × ℤ) :=
  let w1 :=
    if σ .manual_next_fan_duty ≠ 0 ∧ σ .manual_next_fan_duty ≠ σ .manual_prev_fan_duty
    then [(Field.manual_prev_fan_duty, σ .manual_next_fan_duty)] else []
  let σ1 := applyShareWrites σ w1
  let w2 :=
    match inp.buf with
    | some buf =>
      [(Field.cpu_temp, buf EC_REG_CPU_TEMP), (Field.gpu_temp, buf EC_REG_GPU_TEMP),
       (Field.fan_duty, calculate_fan_duty (buf EC_REG_CPU_FAN_DUTY)),
       (Field.fan_rpms,
        calculate_fan_rpms (buf EC_REG_CPU_FAN_RPMS_HI) (buf EC_REG_CPU_FAN_RPMS_LO))]
    | none => []
  let σ2 := applyShareWrites σ1 w2
  let w3 :=
    if σ2 .auto_duty = 1 then
      let next := ec_auto_duty_adjust (σ2 .cpu_temp) (σ2 .gpu_temp) (σ2 .fan_duty)
      if next ≠ 0 ∧ next ≠ σ2 .auto_duty_val then [(Field.auto_duty_val, next)] else []
    else []
  w1 ++ w2 ++ w3

/-- The shared-state writes of `ui_command_set_fan` (presentation side). -/
def ui_command_set_fan (fan_duty : ℤ) : List (Field × ℤ) :=
  if fan_duty = 0 then
    [(Field.auto_duty, 1), (Field.auto_duty_val, 0), (Field.manual_next_fan_duty, 0)]
  else
    [(Field.auto_duty, 0), (Field.auto_duty_val, 0), (Field.manual_next_fan_duty, fan_duty)]

/-- An atomic step of either process on the shared block:
`workerCycle`/`sigtermEc` belong to the privileged worker, the rest to the
presentation/parent side (`parentExit` is the `share_info->exit = 1` the
parent performs after its UI loop returns). -/
inductive Event
  | workerCycle (inp : WorkerInput)
  | sigtermEc
  | uiSetFan (v : ℤ)
  | uiQuit
  | parentExit
  | sigtermMain

def eventWrites (σ : Share) : Event → List (Field × ℤ)
  | .workerCycle inp => workerCycleWrites σ inp
  | .sigtermEc => [(Field.exitFlag, 1)]
  | .uiSetFan v => ui_command_set_fan v
  | .uiQuit => []
  | .parentExit => [(Field.exitFlag, 1)]
  | .sigtermMain => [(Field.exitFlag, 1)]

def applyEvent (σ : Share) (e : Event) : Share :=
  applyShareWrites σ (eventWrites σ e)

def runEvents (σ : Share) : List Event → Share
  | [] => σ
  | e :: es => runEvents (applyEvent σ e) es

/-! ## Concrete states and inputs used by counterexamples and witnesses -/

/-- A loop state in which a raw CPU reading of 5 °C is clamped up to 15 °C:
`lastCPU = 25` (two valid warm cycles suffice to reach such a state). -/
def stateC5 : LoopState :=
  { initial := false, current0 := 0, current1 := 0, lastCPU := 25, lastGPU := 0
    repeat0 := 0, repeat1 := 0, lastfail := 0, missing := 0, ctrl_check := 0
    ctrl := ctrlInit }

/-- A cycle whose raw CPU reading (5 °C) is below the validity floor while
the GPU runs hot. -/
def inputC5 : CycleInput :=
  { found := true, gputemp := 90, cpuReads := fun _ => 5, curCpu := 0, curGpu := 0
    ctrlFile := none }

/-- A loop state with a pending decrease streak (`repeatCheck[0] = 2`) and
both fans applied at 60 %. -/
def stateC7 : LoopState :=
  { initial := false, current0 := 60, current1 := 60, lastCPU := 0, lastGPU := 0
    repeat0 := 2, repeat1 := 0, lastfail := 0, missing := 0, ctrl_check := 0
    ctrl := ctrlInit }

/-- A cycle requesting exactly the applied duty (temperatures at 80 °C give
duty 60 on both channels) while the hardware reports a CPU duty of 55,
triggering the resync path. -/
def inputC7 : CycleInput :=
  { found := true, gputemp := 80, cpuReads := fun _ => 80, curCpu := 55, curGpu := 60
    ctrlFile := none }

/-- Fault-cycle state for the C5 witness: no glitch clamp (`lastCPU = 0`). -/
def stateC5w : LoopState :=
  { initial := false, current0 := 60, current1 := 60, lastCPU := 0, lastGPU := 0
    repeat0 := 0, repeat1 := 0, lastfail := 0, missing := 0, ctrl_check := 0
    ctrl := ctrlInit }

/-- A cycle whose CPU reading 5 °C stays below the floor after clamping. -/
def inputC5w : CycleInput :=
  { found := true, gputemp := 50, cpuReads := fun _ => 5, curCpu := 60, curGpu := 60
    ctrlFile := none }

/-- Control settings with both a floor and a forced value on the CPU
channel, as in the claimed precedence scenario. -/
def ctrlC6 : CtrlSettings :=
  { offset_cpu := 0, offset_gpu := 0, min_cpu := 60, min_gpu := 0
    force_cpu := 40, force_gpu := -1 }

/-- Control settings whose forced CPU value is negative (any integer can be
parsed from the control file): exposes the missing lower clamp. -/
def ctrlC6neg : CtrlSettings :=
  { offset_cpu := 0, offset_gpu := 0, min_cpu := 0, min_gpu := 0
    force_cpu := -2, force_gpu := -1 }

/-- A shared-state snapshot with every field 1 (exit flag already set). -/
def shareAllOne : Share := fun _ => 1

/-! ## Theorems -/

/-- The wait loop's counter never exceeds its starting value plus the fuel. -/
theorem ec_io_wait_loop_fst_le (sc : ℕ → ℕ) (flag value : ℕ) :
    ∀ (fuel i t : ℕ), (ec_io_wait_loop sc flag value fuel i t).1 ≤ i + fuel := by
  intro fuel
  induction fuel with
  | zero => intro i t; exact Nat.le_add_right i 0
  | succ n ih =>
    intro i t
    unfold ec_io_wait_loop
    split
    · split
      · exact le_trans (ih (i + 1) (t + 1)) (by omega)
      · show i + 1 ≤ i + (n + 1)
        omega
    · show i ≤ i + (n + 1)
      omega

/-- C1: the direct-port handshake wait can exhaust its 100-attempt retry
bound (a permanently busy status port drives the counter to 101), yet
`ec_io_wait` still returns `EXIT_SUCCESS` — its failure test compares the
counter against 1000, which the loop bound makes unreachable — and
`ec_io_read` returns the data-port byte unconditionally, so no enclosing
operation is ever aborted on timeout.  This contradicts the claim (and the
in-source error message of the dead branch), so the timeout reporting the
spec describes is a bug in the code. -/
theorem ec_io_wait_never_reports_timeout :
    (∀ (sc : ℕ → ℕ) (flag value t : ℕ),
        (ec_io_wait_full sc flag value t).1 = EXIT_SUCCESS) ∧
    (ec_io_wait_loop (fun _ => 2) IBF 0 101 0 0).1 = 101 ∧
    (∀ (sc : ℕ → ℕ) (d : ℕ), ec_io_read { sc := sc, data := fun _ => d } = d) := by
  refine ⟨?_, by decide, fun sc d => rfl⟩
  intro sc flag value t
  have h := ec_io_wait_loop_fst_le sc flag value 101 0 t
  have h2 : (ec_io_wait_full sc flag value t).1 =
      if (ec_io_wait_loop sc flag value 101 0 t).1 ≥ 1000 then EXIT_FAILURE
      else EXIT_SUCCESS := rfl
  rw [h2, if_neg (by omega)]

/-- C3 counterexample: at combined temperature 50 with applied duty 70 the
code returns 100 (no rising or falling condition passes its duty guard),
while the claim's duty-free threshold tables give 60 (the ≥40 rising rule).
The claim's description of the ladder is therefore not the code's
function. -/
theorem ladder_table_mismatch_at_50_70 :
    ec_auto_duty_adjust 50 50 70 = 100 ∧ ladderSpecTable 50 = 60 ∧
    ec_auto_duty_adjust 50 50 70 ≠ ladderSpecTable 50 := by
  refine ⟨by decide, by decide, by decide⟩

/-- C3 (amended): the ladder equals the threshold tables once each rising
rule carries the guard `duty < target` and each falling rule the guard
`duty > target`; first matching rule wins, else the duty holds at 100.  It
is a pure function of the combined temperature `max cpu gpu` and the
currently applied duty. -/
theorem ladder_equals_guarded_tables (cpu_temp gpu_temp fan_duty : ℤ) :
    ec_auto_duty_adjust cpu_temp gpu_temp fan_duty =
      ladderSpecGuarded (max cpu_temp gpu_temp) fan_duty := by
  unfold ec_auto_duty_adjust ladderSpecGuarded risingRules fallingRules
  simp only [findRisingGuarded, findFallingGuarded]
  generalize max cpu_temp gpu_temp = temp
  by_cases h1 : temp ≥ 80 ∧ fan_duty < 100
  · simp only [if_pos h1, Option.getD_some]
  simp only [if_neg h1]
  by_cases h2 : temp ≥ 70 ∧ fan_duty < 90
  · simp only [if_pos h2, Option.getD_some]
  simp only [if_neg h2]
  by_cases h3 : temp ≥ 60 ∧ fan_duty < 80
  · simp only [if_pos h3, Option.getD_some]
  simp only [if_neg h3]
  by_cases h4 : temp ≥ 55 ∧ fan_duty < 70
  · simp only [if_pos h4, Option.getD_some]
  simp only [if_neg h4]
  by_cases h5 : temp ≥ 40 ∧ fan_duty < 60
  · simp only [if_pos h5, Option.getD_some]
  simp only [if_neg h5]
  by_cases h6 : temp ≥ 30 ∧ fan_duty < 50
  · simp only [if_pos h6, Option.getD_some]
  simp only [if_neg h6]
  by_cases h7 : temp ≥ 20 ∧ fan_duty < 40
  · simp only [if_pos h7, Option.getD_some]
  simp only [if_neg h7]
  by_cases h8 : temp ≥ 10 ∧ fan_duty < 30
  · simp only [if_pos h8, Option.getD_some]
  simp only [if_neg h8, Option.getD_none]
  by_cases g1 : temp ≤ 15 ∧ fan_duty > 30
  · simp only [if_pos g1, Option.getD_some]
  simp only [if_neg g1]
  by_cases g2 : temp ≤ 25 ∧ fan_duty > 40
  · simp only [if_pos g2, Option.getD_some]
  simp only [if_neg g2]
  by_cases g3 : temp ≤ 35 ∧ fan_duty > 50
  · simp only [if_pos g3, Option.getD_some]
  simp only [if_neg g3]
  by_cases g4 : temp ≤ 45 ∧ fan_duty > 60
  · simp only [if_pos g4, Option.getD_some]
  simp only [if_neg g4]
  by_cases g5 : temp ≤ 55 ∧ fan_duty > 70
  · simp only [if_pos g5, Option.getD_some]
  simp only [if_neg g5]
  by_cases g6 : temp ≤ 65 ∧ fan_duty > 80
  · simp only [if_pos g6, Option.getD_some]
  simp only [if_neg g6]
  by_cases g7 : temp ≤ 75 ∧ fan_duty > 90
  · simp only [if_pos g7, Option.getD_some]
  simp only [if_neg g7, Option.getD_none]

/-- C4 counterexample: with current duty 50 a combined temperature of 58
does change the duty — the ≥55 rising rule fires because its guard
`duty < 70` holds, returning 70 — and from duty 80 a temperature of 50
returns 70 (the ≤55 falling rule, whose guard `duty > 70` holds), not 60.
Both cited scenario outcomes are false on the code. -/
theorem ladder_hysteresis_scenario_false :
    ec_auto_duty_adjust 58 58 50 ≠ 50 ∧ ec_auto_duty_adjust 50 50 80 ≠ 60 := by
  refine ⟨by decide, by decide⟩

/-- C4 (amended): the actual ladder scenario values: at duty 50,
temperature 58 raises the duty to 70 and temperature 60 raises it to 80; at
duty 80, temperature 50 lowers the duty to 70, the first falling rule whose
`≤55` threshold and `duty > 70` guard both hold. -/
theorem ladder_hysteresis_scenario_actual :
    ec_auto_duty_adjust 58 58 50 = 70 ∧ ec_auto_duty_adjust 60 60 50 = 80 ∧
    ec_auto_duty_adjust 50 50 80 = 70 := by
  refine ⟨by decide, by decide, by decide⟩

/-- A token-less cycle below the liveness bound only increments `missing`. -/
theorem stepState_noTok (s : LoopState) (h : ¬ s.missing > 5) :
    stepState s noTokInput = { s with missing := s.missing + 1 } := by
  simp [stepState, cycleStep, h, noTokInput]

/-- A token-less cycle below the liveness bound neither terminates nor
writes. -/
theorem cycleStep_noTok_quiet (s : LoopState) (h : ¬ s.missing > 5) :
    (cycleStep s noTokInput).terminated = false ∧ (cycleStep s noTokInput).writes = [] := by
  simp [cycleStep, h, noTokInput]

/-- Once `missing` exceeds 5, the next iteration (whatever its inputs)
writes 70 % to the GPU fan, then the CPU fan, and terminates. -/
theorem cycleStep_missing_exceeded (s : LoopState) (inp : CycleInput) (h : s.missing > 5) :
    cycleStep s inp =
      { terminated := true, writes := [(1, 70), (0, 70)], state := s } := by
  simp [cycleStep, h]

/-- Iterating token-less cycles counts `missing` up from 0. -/
theorem missing_counts_up (s : LoopState) (h : s.missing = 0) :
    ∀ k : ℕ, k ≤ 6 → ((fun t => stepState t noTokInput)^[k] s).missing = (k : ℤ) := by
  intro k
  induction k with
  | zero => intro _; simpa using h
  | succ n ih =>
    intro hn
    have hmn : ((fun t => stepState t noTokInput)^[n] s).missing = (n : ℤ) := ih (by omega)
    rw [Function.iterate_succ_apply', stepState_noTok _ (by omega)]
    simp [hmn]

/-- C2 counterexample: starting from the loop's initial state, after exactly
five consecutive token-less cycles the loop has *not* terminated and has
written nothing — the sixth token-less cycle still runs normally
(`missing` merely reaches 6).  The claimed five-cycle cutoff is therefore
not the code's behaviour. -/
theorem five_missing_cycles_do_not_terminate :
    (cycleStep ((fun t => stepState t noTokInput)^[5] initState) noTokInput).terminated
        = false ∧
    (cycleStep ((fun t => stepState t noTokInput)^[5] initState) noTokInput).writes = [] ∧
    ((fun t => stepState t noTokInput)^[6] initState).missing = 6 := by
  refine ⟨by decide, by decide, by decide⟩

/-- C2 (amended): the liveness cutoff takes six consecutive token-less
cycles: from any state with a fresh `missing` counter, none of the first six
token-less iterations terminates, and the iteration after the sixth (the
check `missing > 5` at the top of the seventh) writes 70 % duty to both
fans — GPU first, then CPU — and terminates the process. -/
theorem six_missing_cycles_force_70_and_exit (s : LoopState) (h : s.missing = 0) :
    (∀ k : ℕ, k ≤ 5 →
      (cycleStep ((fun t => stepState t noTokInput)^[k] s) noTokInput).terminated = false) ∧
    (∀ inp : CycleInput,
      cycleStep ((fun t => stepState t noTokInput)^[6] s) inp =
        { terminated := true, writes := [(1, 70), (0, 70)]
          state := (fun t => stepState t noTokInput)^[6] s }) := by
  constructor
  · intro k hk
    have hm := missing_counts_up s h k (by omega)
    exact (cycleStep_noTok_quiet _ (by omega)).1
  · intro inp
    have hm := missing_counts_up s h 6 (by omega)
    exact cycleStep_missing_exceeded _ inp (by omega)

/-- C2 witness: concrete run from the initial state. -/
theorem six_missing_cycles_force_70_and_exit_witness :
    cycleStep ((fun t => stepState t noTokInput)^[6] initState) noTokInput =
      { terminated := true, writes := [(1, 70), (0, 70)]
        state := (fun t => stepState t noTokInput)^[6] initState } :=
  (six_missing_cycles_force_70_and_exit initState rfl).2 noTokInput

/-- C6 counterexample: a forced CPU duty of `-2` (any integer can be read
from the control file; only `-1` means "unset") passes the override pipeline
untouched — the pipeline caps values above 100 but applies no lower clamp,
so the claimed clamping to the range [0,100] does not happen. -/
theorem negative_forced_duty_escapes_clamp :
    (applyOverrides ctrlC6neg 80 90).1 = -2 ∧ ¬ 0 ≤ (applyOverrides ctrlC6neg 80 90).1 := by
  refine ⟨by decide, by decide⟩

/-- C6 (amended): the override pipeline applies, in order, the additive
offset, then the floor, then the forced absolute value (which overrides the
floor unconditionally), and finally caps the result at 100 — with no lower
clamp.  In particular `min_cpu = 60` with `force_cpu = 40` yields effective
duty 40. -/
theorem override_pipeline (c : CtrlSettings) (in0 in1 : ℤ) :
    applyOverrides c in0 in1 =
      (min (if c.force_cpu ≠ -1 then c.force_cpu else max (in0 + c.offset_cpu) c.min_cpu) 100,
       min (if c.force_gpu ≠ -1 then c.force_gpu else max (in1 + c.offset_gpu) c.min_gpu) 100) ∧
    (applyOverrides ctrlC6 0 0).1 = 40 := by
  constructor
  · simp only [applyOverrides, Prod.mk.injEq]
    constructor <;> split_ifs <;> omega
  · decide

/-- C7 counterexample: a cycle in which the rate-limiting policy itself
decides no apply (the request equals the applied duty) but the hardware
readback disagrees, so the resync path forces an apply on both channels: the
write happens, yet the channel-0 repeat counter keeps its value 2 instead of
resetting.  An apply therefore does not always reset the counter. -/
theorem forced_apply_does_not_reset_repeat_counter :
    (cycleStep stateC7 inputC7).writes = [(0, 60), (1, 60)] ∧
    (cycleStep stateC7 inputC7).state.repeat0 = 2 := by
  constructor <;>
    norm_num [cycleStep, foundStep, stateC7, inputC7, cycleDoSet0, cycleDoSet1, cycleFault,
      cycleCputemp, cpuTempClamped, cpuTempSelected, cycleD0, cycleD1, cycleD0pre, cycleD1pre,
      cycleReq, cycleAvg, blendPair, gpuRescaled, dutyCurve, truncQ, applyOverrides, cycleCtrl,
      ctrlInit, rateLimitDecide, cycleMismatch, cycleLastfail, TEMP_FAIL_THRESHOLD]

/-- C7 (amended): (i) a downward duty request fewer than 6 points below the
current duty, meeting no other apply condition of the policy, is denied and
counted for the first four consecutive cycles and applied once the counter
has reached 4 (that is, on the fifth consecutive request); (ii) whenever the
policy itself decides an apply it resets the channel's counter; (iii) the
repeat counter that survives a cycle is exactly the policy's output — the
initial-cycle, hardware-resync and fault paths force writes without touching
it. -/
theorem debounce_policy :
    (∀ c d r : ℤ, 0 < c → d < c → c - d ≤ 5 →
      (r < 4 → rateLimitDecide c d r = (false, r + 1)) ∧
      (4 ≤ r → rateLimitDecide c d r = (true, 0))) ∧
    (∀ c d r : ℤ, (rateLimitDecide c d r).1 = true → (rateLimitDecide c d r).2 = 0) ∧
    (∀ (s : LoopState) (inp : CycleInput), ¬ s.missing > 5 → inp.found = true →
      (cycleStep s inp).state.repeat0 =
          (rateLimitDecide s.current0 (cycleReq s inp).1 s.repeat0).2 ∧
      (cycleStep s inp).state.repeat1 =
          (rateLimitDecide s.current1 (cycleReq s inp).2 s.repeat1).2) := by
  refine ⟨?_, ?_, ?_⟩
  · intro c d r h1 h2 h3
    constructor <;> intro hr <;>
      · unfold rateLimitDecide
        split_ifs <;> first | rfl | omega
  · intro c d r
    unfold rateLimitDecide
    split_ifs <;> simp
  · intro s inp hm hf
    rw [show cycleStep s inp = foundStep s inp by simp [cycleStep, hm, hf]]
    exact ⟨rfl, rfl⟩

/-- C7 witness: a 3-point decrease request at duty 50 is denied and counted
on a fresh counter, and applied once the counter has reached 4. -/
theorem debounce_policy_witness :
    rateLimitDecide 50 47 0 = (false, 1) ∧ rateLimitDecide 50 47 4 = (true, 0) :=
  ⟨(debounce_policy.1 50 47 0 (by norm_num) (by norm_num) (by norm_num)).1 (by norm_num),
   (debounce_policy.1 50 47 4 (by norm_num) (by norm_num) (by norm_num)).2 (by norm_num)⟩

/-- C5 counterexample: a cycle whose *raw* CPU reading is 5 °C (below the
15 °C validity floor) with `lastCPU = 25`: the glitch clamp raises the
working temperature to 15 °C, so the fault branch is never entered — the
supposedly absorbed first fault cycle applies a duty change (90 % to the GPU
fan) and the fault counter stays 0 instead of counting the fault. -/
theorem raw_cpu_fault_cycle_applies_duty :
    inputC5.cpuReads 0 = 5 ∧
    (cycleStep stateC5 inputC5).writes = [(1, 90)] ∧
    (cycleStep stateC5 inputC5).state.lastfail = 0 := by
  refine ⟨rfl, ?_, ?_⟩ <;>
    norm_num [cycleStep, foundStep, stateC5, inputC5, cycleDoSet0, cycleDoSet1, cycleFault,
      cycleCputemp, cpuTempClamped, cpuTempSelected, cycleD0, cycleD1, cycleD0pre, cycleD1pre,
      cycleReq, cycleAvg, blendPair, gpuRescaled, dutyCurve, truncQ, applyOverrides, cycleCtrl,
      ctrlInit, rateLimitDecide, cycleMismatch, cycleLastfail, TEMP_FAIL_THRESHOLD]

/-- C5 (amended): with the fault condition taken on the CPU temperature the
loop actually works with — the raw reading after the retry selection and
after the `lastCPU - 10` glitch clamp — and on the raw GPU token: a first
fault cycle applies no duty change to either channel and increments the
fault counter; a cycle faulting while the counter is already positive
forces both channels' targets to at least 50 % and applies them; a
fault-free cycle resets the counter. -/
theorem fault_cycle_behavior (s : LoopState) (inp : CycleInput)
    (hm : ¬ s.missing > 5) (hf : inp.found = true) :
    (cycleFault s inp → s.lastfail = 0 →
      (cycleStep s inp).writes = [] ∧
      (cycleStep s inp).state.current0 = s.current0 ∧
      (cycleStep s inp).state.current1 = s.current1 ∧
      (cycleStep s inp).state.lastfail = 1) ∧
    (cycleFault s inp → 1 ≤ s.lastfail →
      (cycleStep s inp).writes = [(0, cycleD0 s inp), (1, cycleD1 s inp)] ∧
      50 ≤ cycleD0 s inp ∧ 50 ≤ cycleD1 s inp ∧
      (cycleStep s inp).state.current0 = cycleD0 s inp ∧
      (cycleStep s inp).state.current1 = cycleD1 s inp) ∧
    (¬ cycleFault s inp → (cycleStep s inp).state.lastfail = 0) := by
  have hstep : cycleStep s inp = foundStep s inp := by simp [cycleStep, hm, hf]
  rw [hstep]
  refine ⟨?_, ?_, ?_⟩
  · intro hflt h0
    have hds0 : cycleDoSet0 s inp = false := by
      rw [cycleDoSet0, if_pos hflt, decide_eq_false (by omega)]
    have hds1 : cycleDoSet1 s inp = false := by
      rw [cycleDoSet1, if_pos hflt, decide_eq_false (by omega)]
    refine ⟨?_, ?_, ?_, ?_⟩ <;>
      simp [foundStep, hds0, hds1, cycleLastfail, hflt, h0]
  · intro hflt h1
    have hds0 : cycleDoSet0 s inp = true := by
      rw [cycleDoSet0, if_pos hflt, decide_eq_true h1]
    have hds1 : cycleDoSet1 s inp = true := by
      rw [cycleDoSet1, if_pos hflt, decide_eq_true h1]
    have h50a : 50 ≤ cycleD0 s inp := by
      rw [cycleD0]
      split_ifs with h
      · omega
      · push_neg at h
        exact h hflt h1
    have h50b : 50 ≤ cycleD1 s inp := by
      rw [cycleD1]
      split_ifs with h
      · omega
      · push_neg at h
        exact h hflt h1
    exact ⟨by simp [foundStep, hds0, hds1], h50a, h50b,
      by simp [foundStep, hds0], by simp [foundStep, hds1]⟩
  · intro hflt
    simp [foundStep, cycleLastfail, hflt]

/-- C5 witness: a concrete fault cycle (CPU reading 5 °C, no glitch clamp)
on a fresh fault counter: no write, counter reaches 1. -/
theorem fault_cycle_behavior_witness :
    (cycleStep stateC5w inputC5w).writes = [] ∧
    (cycleStep stateC5w inputC5w).state.lastfail = 1 := by
  have hflt : cycleFault stateC5w inputC5w := by
    left
    norm_num [cycleFault, cycleCputemp, cpuTempClamped, cpuTempSelected, stateC5w, inputC5w,
      TEMP_FAIL_THRESHOLD]
  have h := (fault_cycle_behavior stateC5w inputC5w (by decide) rfl).1 hflt rfl
  exact ⟨h.1, h.2.2.2⟩

/-- C8: the duty round-trip is exact to within one percentage point: for
every percentage 0–100, decoding (`calculate_fan_duty`) the raw byte the
write path encodes (`ec_write_fan_duty_raw`) differs from the original
percentage by at most 1. -/
theorem duty_roundtrip (p : ℤ) (h0 : 0 ≤ p) (h1 : p ≤ 100) :
    calculate_fan_duty (ec_write_fan_duty_raw p) - p ≤ 1 ∧
    p - calculate_fan_duty (ec_write_fan_duty_raw p) ≤ 1 := by
  interval_cases p <;>
    norm_num [calculate_fan_duty, ec_write_fan_duty_raw, truncQ]

/-- C8 witness: round trip at 85 %. -/
theorem duty_roundtrip_witness :
    calculate_fan_duty (ec_write_fan_duty_raw 85) - 85 ≤ 1 ∧
    85 - calculate_fan_duty (ec_write_fan_duty_raw 85) ≤ 1 :=
  duty_roundtrip 85 (by norm_num) (by norm_num)

/-- C10: in hwmon mode, whenever the backing sysfs attribute cannot be
opened, every query (CPU temperature, CPU/GPU fan duty, CPU/GPU fan RPM)
returns the in-band value 99, and both duty writes likewise return 99 —
which is neither `EXIT_SUCCESS` nor `EXIT_FAILURE`, the codes the write
paths use elsewhere; no error value distinct from a plausible reading is
produced. -/
theorem hwmon_open_failure_returns_99 (fs : HwmonFS) (ports : ℕ → EcPorts)
    (sc : ℕ → ℕ) (d : ℤ) (hfs : ∀ a, fs a = none) (h0 : 0 ≤ d) (h1 : d ≤ 100) :
    ec_query_cpu_temp true fs ports = 99 ∧
    ec_query_cpu_fan_duty true fs ports = 99 ∧
    ec_query_gpu_fan_duty true fs ports = 99 ∧
    ec_query_cpu_fan_rpms true fs ports = 99 ∧
    ec_query_gpu_fan_rpms true fs ports = 99 ∧
    ec_write_cpu_fan_duty true fs sc d = 99 ∧
    ec_write_gpu_fan_duty true fs sc d = 99 ∧
    (99 : ℤ) ≠ EXIT_SUCCESS ∧ (99 : ℤ) ≠ EXIT_FAILURE := by
  refine ⟨?_, ?_, ?_, ?_, ?_, ?_, ?_, by decide, by decide⟩ <;>
    simp [ec_query_cpu_temp, ec_query_cpu_fan_duty, ec_query_gpu_fan_duty,
      ec_query_cpu_fan_rpms, ec_query_gpu_fan_rpms, ec_write_cpu_fan_duty,
      ec_write_gpu_fan_duty, hfs, show ¬ (d < 0 ∨ d > 100) by omega]

/-- C10 witness: an absent hwmon attribute set. -/
theorem hwmon_open_failure_returns_99_witness :
    ec_query_cpu_temp true (fun _ => none) (fun _ => ⟨fun _ => 0, fun _ => 0⟩) = 99 ∧
    ec_write_cpu_fan_duty true (fun _ => none) (fun _ => 0) 50 = 99 := by
  have h := hwmon_open_failure_returns_99 (fun _ => none)
    (fun _ => ⟨fun _ => 0, fun _ => 0⟩) (fun _ => 0) 50 (fun _ => rfl)
    (by norm_num) (by norm_num)
  exact ⟨h.1, h.2.2.2.2.2.1⟩

/-- Every field the worker's loop writes is telemetry, the applied
auto-duty, or its previous-manual-duty bookkeeping. -/
theorem workerCycleWrites_fields (σ : Share) (inp : WorkerInput) (f : Field) (v : ℤ)
    (h : (f, v) ∈ workerCycleWrites σ inp) :
    f = Field.cpu_temp ∨ f = Field.gpu_temp ∨ f = Field.fan_duty ∨ f = Field.fan_rpms ∨
      f = Field.auto_duty_val ∨ f = Field.manual_prev_fan_duty := by
  unfold workerCycleWrites at h
  simp only [List.mem_append] at h
  rcases h with (h | h) | h
  · split at h <;> simp_all
  · split at h <;> simp_all
    tauto
  · split at h
    · split at h <;> simp_all
    · simp_all

/-- Every field `ui_command_set_fan` writes is the mode flag, the applied
auto-duty (always reset to 0), or the manual duty request. -/
theorem uiSetFan_fields (v : ℤ) (f : Field) (w : ℤ) (h : (f, w) ∈ ui_command_set_fan v) :
    (f = Field.auto_duty ∨ f = Field.auto_duty_val ∨ f = Field.manual_next_fan_duty) ∧
    (f = Field.auto_duty_val → w = 0) := by
  unfold ui_command_set_fan at h
  split at h <;> simp at h <;>
    rcases h with ⟨h1, h2⟩ | ⟨h1, h2⟩ | ⟨h1, h2⟩ <;> subst h1 <;> simp [h2]

/-- The exit flag is only ever written with the value 1. -/
theorem exit_writes_are_one (σ : Share) (e : Event) (v : ℤ)
    (h : (Field.exitFlag, v) ∈ eventWrites σ e) : v = 1 := by
  cases e with
  | workerCycle inp =>
    rcases workerCycleWrites_fields σ inp _ v h with h' | h' | h' | h' | h' | h' <;>
      exact absurd h' (by simp)
  | uiSetFan w =>
    rcases (uiSetFan_fields w _ v h).1 with h' | h' | h' <;> exact absurd h' (by simp)
  | sigtermEc => simp_all [eventWrites]
  | uiQuit => simp_all [eventWrites]
  | parentExit => simp_all [eventWrites]
  | sigtermMain => simp_all [eventWrites]

/-- Folding a write list whose writes to `f` all carry the value `x`
preserves `σ f = x`. -/
theorem applyShareWrites_preserves (f : Field) (x : ℤ) :
    ∀ (ws : List (Field × ℤ)) (σ : Share),
      (∀ v, (f, v) ∈ ws → v = x) → σ f = x → applyShareWrites σ ws f = x := by
  intro ws
  induction ws with
  | nil => intro σ _ hσ; exact hσ
  | cons w ws ih =>
    intro σ h hσ
    simp only [applyShareWrites, List.foldl_cons] at *
    apply ih
    · intro v hv
      exact h v (List.mem_cons_of_mem w hv)
    · by_cases hw : f = w.1
      · simp only [hw, if_pos rfl]
        apply h
        rw [hw]
        simp
      · simpa [hw] using hσ

/-- A set exit flag survives any step of either process. -/
theorem exit_flag_monotone_step (σ : Share) (e : Event) (h : σ Field.exitFlag = 1) :
    applyEvent σ e Field.exitFlag = 1 :=
  applyShareWrites_preserves Field.exitFlag 1 (eventWrites σ e) σ
    (fun v hv => exit_writes_are_one σ e v hv) h

/-- A set exit flag survives any interleaving of steps. -/
theorem exit_flag_monotone_trace (tr : List Event) :
    ∀ σ : Share, σ Field.exitFlag = 1 → runEvents σ tr Field.exitFlag = 1 := by
  induction tr with
  | nil => intro σ h; exact h
  | cons e es ih =>
    intro σ h
    exact ih (applyEvent σ e) (exit_flag_monotone_step σ e h)

/-- C9 counterexample: the presentation side writes the applied auto-duty:
selecting a manual duty through `ui_command_set_fan` emits a write of 0 to
`auto_duty_val`, so the worker is not the only writer of that field. -/
theorem presentation_writes_auto_duty_val :
    (Field.auto_duty_val, 0) ∈ eventWrites shareAllOne (Event.uiSetFan 60) := by decide

/-- C9 (amended): over every interleaving of the two processes' steps, the
worker's loop writes only the telemetry fields, the applied auto-duty and
its previous-manual-duty bookkeeping; the presentation side's fan command
writes only the mode flag, the manual duty request, and a reset of the
applied auto-duty to 0; the exit flag is only ever written with 1 and, once
set, remains set under every further step of either side. -/
theorem share_single_writer_and_exit_monotone :
    (∀ (σ : Share) (inp : WorkerInput) (f : Field) (v : ℤ),
      (f, v) ∈ workerCycleWrites σ inp →
        f = Field.cpu_temp ∨ f = Field.gpu_temp ∨ f = Field.fan_duty ∨ f = Field.fan_rpms ∨
          f = Field.auto_duty_val ∨ f = Field.manual_prev_fan_duty) ∧
    (∀ (v : ℤ) (f : Field) (w : ℤ), (f, w) ∈ ui_command_set_fan v →
      (f = Field.auto_duty ∨ f = Field.auto_duty_val ∨ f = Field.manual_next_fan_duty) ∧
      (f = Field.auto_duty_val → w = 0)) ∧
    (∀ (σ : Share) (e : Event) (v : ℤ), (Field.exitFlag, v) ∈ eventWrites σ e → v = 1) ∧
    (∀ (tr : List Event) (σ : Share),
      σ Field.exitFlag = 1 → runEvents σ tr Field.exitFlag = 1) :=
  ⟨workerCycleWrites_fields, uiSetFan_fields, exit_writes_are_one, exit_flag_monotone_trace⟩

/-- C9 witness: a concrete interleaving — worker termination signal followed
by a presentation-side fan command — keeps a set exit flag set. -/
theorem share_single_writer_and_exit_monotone_witness :
    runEvents shareAllOne [Event.sigtermEc, Event.uiSetFan 60] Field.exitFlag = 1 :=
  share_single_writer_and_exit_monotone.2.2.2 [Event.sigtermEc, Event.uiSetFan 60]
    shareAllOne rfl

end Clevo
